import Mathlib

/-!
Verification development for the six-stage AI research pipeline
(`research_system`): a shallow embedding of the storage layer
(`storage/database.py`), the budget guard (`services/cost_tracker.py`)
and the six stage agents (`agents/*.py`), together with theorems about
the behaviours documented in the specification.

Conventions of the embedding:
* Python `float` values are modelled as `ℚ` (all constants appearing in
  the code are decimal literals, and every comparison performed by the
  code on them is exact at the inputs considered here).
* A fallible parse (`try: ... json.loads / float(...) except: ...`) is
  modelled by passing the parse outcome as an `Option`: `none` is the
  exception branch, `some v` the successfully parsed value.
* LLM completions, generated uuids and wall-clock times are external
  inputs; each stage function takes them as explicit oracle arguments.
* SQLite `TEXT` timestamps (ISO strings, compared lexicographically by
  `ORDER BY`) are modelled as `Nat` instants.
-/

namespace ResearchSystem

/-! ## Stage 6: statistical analysis and decision rule
    (`agents/results_analysis.py`) -/

/-- Output of `ResultsAnalysisAgent._perform_statistical_analysis`:
the simulated statistics dictionary. -/
structure StatResults where
  p_value : ℚ
  significance_level : ℚ
  effect_size : ℚ
  ci_lower : ℚ
  ci_upper : ℚ
  sample_size : Nat
  statistically_significant : Bool
deriving Repr, DecidableEq

/-- Success-criteria dictionary stored with a hypothesis
(`success_criteria` JSON column); keys may be absent. -/
structure SuccessCriteria where
  significance_level : Option ℚ
  minimum_effect_size : Option ℚ
  minimum_sample_size : Option Nat
  metrics : List (String × String)
deriving Repr, DecidableEq

/-- Metrics block of an experiment run's `results_data`. -/
structure ResultsData where
  status : String
  samples_processed : Nat
  metrics : List (String × ℚ)
  execution_time_seconds : ℚ
deriving Repr, DecidableEq

/-- Mean of the metrics dictionary values, `0.5` when empty
(`sum(metrics.values()) / len(metrics) if metrics else 0.5`). -/
def avgMetric (metrics : List (String × ℚ)) : ℚ :=
  if metrics.isEmpty then 1/2
  else (metrics.map Prod.snd).sum / metrics.length

/-- `ResultsAnalysisAgent._perform_statistical_analysis`: simulates a
p-value from the metric mean, an effect size, and significance. -/
def perform_statistical_analysis (rd : ResultsData) (crit : SuccessCriteria) :
    StatResults :=
  let avg := avgMetric rd.metrics
  let p : ℚ := if avg > 7/10 then 3/100 else 15/100
  let sig := crit.significance_level.getD (5/100)
  { p_value := p
    significance_level := sig
    effect_size := (avg - 1/2) * 2
    ci_lower := avg - 5/100
    ci_upper := avg + 5/100
    sample_size := rd.samples_processed
    statistically_significant := decide (p < sig) }

/-- `ResultsAnalysisAgent._make_decision`: the fixed 4-way decision
rule over the statistical results and the hypothesis's stored minimum
effect size. -/
def make_decision (s : StatResults) (crit : SuccessCriteria) : String :=
  let is_significant := s.statistically_significant
  let min_effect := crit.minimum_effect_size.getD (3/10)
  if is_significant ∧ |s.effect_size| ≥ min_effect then
    "ACCEPT - Strong evidence supports hypothesis"
  else if is_significant ∧ |s.effect_size| < min_effect then
    "ACCEPT (weak) - Statistically significant but small effect"
  else if s.p_value < 1/10 then
    "INCONCLUSIVE - Marginally significant, needs more data"
  else
    "REJECT - Insufficient evidence to support hypothesis"

/-- The Stage-6 decision label as a function of the quadruple
`(p_value, significance_level, effect_size, minimum_effect_size)`:
`_make_decision` applied to statistics whose `statistically_significant`
field was computed (as in `_perform_statistical_analysis`) as
`p_value < significance_level`. -/
def decisionLabel (p sig effect min_effect : ℚ) : String :=
  make_decision
    { p_value := p, significance_level := sig, effect_size := effect
      ci_lower := 0, ci_upper := 0, sample_size := 0
      statistically_significant := decide (p < sig) }
    { significance_level := some sig, minimum_effect_size := some min_effect
      minimum_sample_size := none, metrics := [] }

/-! ## Numeric extraction and idea scoring
    (`agents/literature_review.py`, `agents/idea_generation.py`) -/

/-- Clamp a parsed score into `[1, 10]`
(`max(1.0, min(10.0, score))`). -/
def clampScore (x : ℚ) : ℚ := max 1 (min 10 x)

/-- `LiteratureReviewAgent._score_relevance`, score component: papers
with an empty abstract get the default `3.0` without an LLM call;
otherwise the response parse (`float(response.strip())`) is clamped to
`[1,10]`, with `5.0` substituted when parsing raises `ValueError`. -/
def score_relevance (abstract : String) (parsed : Option ℚ) : ℚ :=
  if abstract = "" then 3
  else
    match parsed with
    | some x => clampScore x
    | none => 5

/-- Scoring weights (`IdeaGenerationAgent` class constants). -/
def NOVELTY_WEIGHT : ℚ := 35/100

def FEASIBILITY_WEIGHT : ℚ := 35/100

def IMPACT_WEIGHT : ℚ := 30/100

/-- Result of `IdeaGenerationAgent._score_idea`. -/
structure IdeaScores where
  novelty : ℚ
  feasibility : ℚ
  impact : ℚ
  overall : ℚ
deriving Repr, DecidableEq

/-- `IdeaGenerationAgent._score_idea`, score component: the response is
parsed as three comma-separated floats (`none` when that raises), each
clamped to `[1,10]`, with the overall score a fixed weighted
combination; parse failure substitutes `5.0` across the board. -/
def score_idea (parsed : Option (ℚ × ℚ × ℚ)) : IdeaScores :=
  match parsed with
  | some (n, f, i) =>
    let novelty := clampScore n
    let feasibility := clampScore f
    let impact := clampScore i
    { novelty := novelty
      feasibility := feasibility
      impact := impact
      overall := novelty * NOVELTY_WEIGHT + feasibility * FEASIBILITY_WEIGHT +
        impact * IMPACT_WEIGHT }
  | none =>
    { novelty := 5, feasibility := 5, impact := 5, overall := 5 }

/-! ## Ledger/Store (`storage/database.py`) -/

/-- Row of the `papers` table. -/
structure Paper where
  arxiv_id : String
  title : String
  authors : List String
  abstract : String
  published_date : Option String
  pdf_url : Option String
  relevance_score : ℚ
  project_id : String
  added_at : Nat
deriving Repr, DecidableEq

/-- Row of the `hypotheses` table (list/object columns JSON-decoded,
as `get_hypotheses` returns them). -/
structure Hypothesis where
  id : String
  project_id : String
  idea_title : String
  hypothesis_text : String
  null_hypothesis : Option String
  independent_variables : List String
  dependent_variables : List String
  control_variables : List String
  success_criteria : SuccessCriteria
  status : String
  created_at : Nat
  metadata : String
deriving Repr, DecidableEq

/-- Data-requirements dictionary of an experiment design
(`data_requirements` JSON column); keys may be absent. -/
structure DataRequirements where
  dataset_source : Option String
  min_samples : Option Nat
  required_features : List String
  data_format : Option String
deriving Repr, DecidableEq

/-- Resource-estimates dictionary of an experiment design, as
`ExperimentDesignAgent._estimate_resources` builds it. -/
structure ResourceEstimate where
  estimated_compute_time : String
  estimated_cost_usd : ℚ
  platform : String
  memory_gb : Nat
  storage_gb : Nat
deriving Repr, DecidableEq

/-- Row of the `experiment_designs` table. -/
structure ExperimentDesign where
  id : String
  hypothesis_id : String
  project_id : String
  methodology : String
  data_requirements : DataRequirements
  code_template : Option String
  resource_estimates : ResourceEstimate
  platform : String
  status : String
  created_at : Nat
  metadata : String
deriving Repr, DecidableEq

/-- Row of the `experiment_runs` table. -/
structure ExperimentRun where
  id : String
  design_id : String
  project_id : String
  status : String
  platform : String
  started_at : Nat
  completed_at : Option Nat
  duration_seconds : Option ℚ
  compute_cost_usd : ℚ
  results_data : Option ResultsData
  logs : Option String
  error : Option String
  metadata : String
deriving Repr, DecidableEq

/-- Row of the `analyses` table. -/
structure Analysis where
  id : String
  run_id : String
  project_id : String
  hypothesis_id : String
  decision : String
  p_value : Option ℚ
  effect_size : Option ℚ
  confidence_interval : List (String × ℚ)
  insights : Option String
  visualizations : List String
  status : String
  created_at : Nat
  metadata : String
deriving Repr, DecidableEq

/-- Row of the `agent_runs` table, restricted to the columns Stage 3
consumes: its predecessor query reads the `results` JSON of the latest
completed `IdeaGenerationAgent` run.  `results_ideas` is the `ideas`
key of that JSON (`none` when the key is absent). -/
structure ScoredIdea where
  title : String
  description : String
  approach : String
  why_novel : String
  novelty_score : ℚ
  feasibility_score : ℚ
  impact_score : ℚ
  overall_score : ℚ
deriving Repr, DecidableEq

/-- See `ScoredIdea`. -/
structure AgentRun where
  project_id : String
  agent_name : String
  status : String
  completed_at : Nat
  results_ideas : Option (List ScoredIdea)
deriving Repr, DecidableEq

/-- The whole SQLite database. -/
structure Database where
  papers : List Paper
  hypotheses : List Hypothesis
  experiment_designs : List ExperimentDesign
  experiment_runs : List ExperimentRun
  analyses : List Analysis
  agent_runs : List AgentRun
deriving Repr, DecidableEq

/-- Semantics of `INSERT OR REPLACE` keyed by `key`: the conflicting
row (same primary key), if any, is deleted and the new row inserted. -/
def upsertBy (key : α → String) (r : α) (t : List α) : List α :=
  r :: t.filter (fun x => key x != key r)

/-- Insert `x` into a list sorted descendingly by `key`. -/
def insertDescBy [LinearOrder κ] (key : α → κ) (x : α) : List α → List α
  | [] => [x]
  | y :: ys => if key y ≤ key x then x :: y :: ys else y :: insertDescBy key x ys

/-- Sort a list descendingly by `key` (models SQL `ORDER BY key DESC`). -/
def sortDescBy [LinearOrder κ] (key : α → κ) : List α → List α
  | [] => []
  | x :: xs => insertDescBy key x (sortDescBy key xs)

/-- `Database.add_paper`: `INSERT OR REPLACE` into `papers`, keyed by
`arxiv_id`; `added_at` is the insertion instant. -/
def Database.add_paper (db : Database) (arxiv_id title : String)
    (authors : List String) (abstract : String) (project_id : String)
    (relevance_score : ℚ) (published_date pdf_url : Option String)
    (now : Nat) : Database :=
  let row : Paper :=
    { arxiv_id := arxiv_id, title := title, authors := authors
      abstract := abstract, published_date := published_date
      pdf_url := pdf_url, relevance_score := relevance_score
      project_id := project_id, added_at := now }
  { db with papers := upsertBy Paper.arxiv_id row db.papers }

/-- `Database.get_papers`: papers of a project,
`ORDER BY relevance_score DESC`. -/
def Database.get_papers (db : Database) (project_id : String) : List Paper :=
  sortDescBy Paper.relevance_score
    (db.papers.filter (fun p => p.project_id == project_id))

/-- `Database.add_hypothesis`: `INSERT OR REPLACE` into `hypotheses`
keyed by `id`, with `status = 'pending'` and `created_at = now`. -/
def Database.add_hypothesis (db : Database) (hypothesis_id project_id
    idea_title hypothesis_text : String) (null_hypothesis : Option String)
    (independent_variables dependent_variables control_variables : List String)
    (success_criteria : SuccessCriteria) (metadata : String)
    (now : Nat) : Database :=
  let row : Hypothesis :=
    { id := hypothesis_id, project_id := project_id
      idea_title := idea_title, hypothesis_text := hypothesis_text
      null_hypothesis := null_hypothesis
      independent_variables := independent_variables
      dependent_variables := dependent_variables
      control_variables := control_variables
      success_criteria := success_criteria, status := "pending"
      created_at := now, metadata := metadata }
  { db with hypotheses := upsertBy Hypothesis.id row db.hypotheses }

/-- `Database.get_hypotheses`: hypotheses of a project, optionally
filtered by status, `ORDER BY created_at DESC`. -/
def Database.get_hypotheses (db : Database) (project_id : String)
    (status : Option String) : List Hypothesis :=
  sortDescBy Hypothesis.created_at
    (db.hypotheses.filter (fun h => h.project_id == project_id &&
      match status with
      | some s => h.status == s
      | none => true))

/-- `Database.add_experiment_design`: `INSERT OR REPLACE` into
`experiment_designs` keyed by `id`, with `status = 'draft'`. -/
def Database.add_experiment_design (db : Database)
    (design_id hypothesis_id project_id methodology : String)
    (data_requirements : DataRequirements) (code_template : Option String)
    (resource_estimates : ResourceEstimate) (platform : String)
    (metadata : String) (now : Nat) : Database :=
  let row : ExperimentDesign :=
    { id := design_id, hypothesis_id := hypothesis_id
      project_id := project_id, methodology := methodology
      data_requirements := data_requirements
      code_template := code_template
      resource_estimates := resource_estimates, platform := platform
      status := "draft", created_at := now, metadata := metadata }
  { db with experiment_designs := upsertBy ExperimentDesign.id row db.experiment_designs }

/-- `Database.get_experiment_designs`: dispatches on which optional
filter is given (hypothesis first, then project), `ORDER BY created_at
DESC`; with neither filter it returns `[]`. -/
def Database.get_experiment_designs (db : Database)
    (hypothesis_id project_id : Option String) : List ExperimentDesign :=
  match hypothesis_id with
  | some h => sortDescBy ExperimentDesign.created_at
      (db.experiment_designs.filter (fun d => d.hypothesis_id == h))
  | none =>
    match project_id with
    | some p => sortDescBy ExperimentDesign.created_at
        (db.experiment_designs.filter (fun d => d.project_id == p))
    | none => []

/-- `Database.add_experiment_run`: `INSERT OR REPLACE` into
`experiment_runs` keyed by `id`, with `status = 'queued'`,
`started_at = now` and the remaining columns at their defaults. -/
def Database.add_experiment_run (db : Database)
    (run_id design_id project_id platform : String) (metadata : String)
    (now : Nat) : Database :=
  let row : ExperimentRun :=
    { id := run_id, design_id := design_id, project_id := project_id
      status := "queued", platform := platform, started_at := now
      completed_at := none, duration_seconds := none
      compute_cost_usd := 0, results_data := none, logs := none
      error := none, metadata := metadata }
  { db with experiment_runs := upsertBy ExperimentRun.id row db.experiment_runs }

/-- Python truthiness of the optional `status` argument
(`if status:` — `None` and `""` are falsy). -/
def pyTruthy : Option String → Bool
  | none => false
  | some s => s != ""

/-- Field updates `Database.update_experiment_run` applies to the row
matching `run_id`: each column is written only when its argument is
supplied, and `completed_at` is stamped exactly when the new status is
`completed`. -/
def updateRunFields (r : ExperimentRun) (status : Option String)
    (results_data : Option ResultsData) (logs error2 : Option String)
    (duration_seconds compute_cost_usd : Option ℚ) (now : Nat) :
    ExperimentRun :=
  let r1 :=
    match status with
    | some s =>
      if s = "" then r
      else if s = "completed" then
        { r with status := s, completed_at := some now }
      else { r with status := s }
    | none => r
  let r2 :=
    match results_data with
    | some d => { r1 with results_data := some d }
    | none => r1
  let r3 :=
    match logs with
    | some l => { r2 with logs := some l }
    | none => r2
  let r4 :=
    match error2 with
    | some e => { r3 with error := some e }
    | none => r3
  let r5 :=
    match duration_seconds with
    | some d => { r4 with duration_seconds := some d }
    | none => r4
  match compute_cost_usd with
  | some c => { r5 with compute_cost_usd := c }
  | none => r5

/-- `Database.update_experiment_run`: `UPDATE experiment_runs SET ...
WHERE id = run_id`, writing only the supplied columns. -/
def Database.update_experiment_run (db : Database) (run_id : String)
    (status : Option String) (results_data : Option ResultsData)
    (logs error2 : Option String) (duration_seconds compute_cost_usd : Option ℚ)
    (now : Nat) : Database :=
  { db with experiment_runs := db.experiment_runs.map (fun r =>
      if r.id == run_id then
        updateRunFields r status results_data logs error2 duration_seconds
          compute_cost_usd now
      else r) }

/-- `Database.get_experiment_runs`: dispatches on which optional filter
is given (design first, then project), `ORDER BY started_at DESC`. -/
def Database.get_experiment_runs (db : Database)
    (design_id project_id : Option String) : List ExperimentRun :=
  match design_id with
  | some d => sortDescBy ExperimentRun.started_at
      (db.experiment_runs.filter (fun r => r.design_id == d))
  | none =>
    match project_id with
    | some p => sortDescBy ExperimentRun.started_at
        (db.experiment_runs.filter (fun r => r.project_id == p))
    | none => []

/-- `Database.add_analysis`: `INSERT OR REPLACE` into `analyses` keyed
by `id`, with `status = 'completed'`. -/
def Database.add_analysis (db : Database)
    (analysis_id run_id project_id hypothesis_id decision : String)
    (p_value effect_size : Option ℚ) (confidence_interval : List (String × ℚ))
    (insights : Option String) (visualizations : List String)
    (metadata : String) (now : Nat) : Database :=
  let row : Analysis :=
    { id := analysis_id, run_id := run_id, project_id := project_id
      hypothesis_id := hypothesis_id, decision := decision
      p_value := p_value, effect_size := effect_size
      confidence_interval := confidence_interval, insights := insights
      visualizations := visualizations, status := "completed"
      created_at := now, metadata := metadata }
  { db with analyses := upsertBy Analysis.id row db.analyses }

/-- `Database.get_analyses`: dispatches on which optional filter is
given (run, then hypothesis, then project), `ORDER BY created_at DESC`. -/
def Database.get_analyses (db : Database)
    (run_id hypothesis_id project_id : Option String) : List Analysis :=
  match run_id with
  | some r => sortDescBy Analysis.created_at
      (db.analyses.filter (fun a => a.run_id == r))
  | none =>
    match hypothesis_id with
    | some h => sortDescBy Analysis.created_at
        (db.analyses.filter (fun a => a.hypothesis_id == h))
    | none =>
      match project_id with
      | some p => sortDescBy Analysis.created_at
          (db.analyses.filter (fun a => a.project_id == p))
      | none => []

/-! ## Budget Guard (`services/cost_tracker.py`) -/

/-- One record appended by `CostTracker.track_api_call`. -/
structure CostEntry where
  agent : String
  tokens : Nat
  cost : ℚ
deriving Repr, DecidableEq

/-- `CostTracker` state: the configured monthly budget, the alert
threshold (`settings.cost_alert_threshold`, default `0.8`), and the
persisted month-keyed cost history. -/
structure CostTracker where
  budget : ℚ
  alert_threshold : ℚ
  costs : List (String × List CostEntry)
deriving Repr, DecidableEq

/-- Entries recorded under a month key (missing key = no entries). -/
def monthEntries (t : CostTracker) (month : String) : List CostEntry :=
  (t.costs.lookup month).getD []

/-- Append an entry to a month's list, creating the key if absent
(`if month_key not in self.costs: self.costs[month_key] = []` then
`append`). -/
def addEntry (month : String) (e : CostEntry) :
    List (String × List CostEntry) → List (String × List CostEntry)
  | [] => [(month, [e])]
  | (m, es) :: rest =>
    if m == month then (m, es ++ [e]) :: rest
    else (m, es) :: addEntry month e rest

/-- `CostTracker.track_api_call`: appends the entry and persists; the
subsequent `_check_budget_alert` only prints a console alert and
modifies nothing, so the new state is exactly the appended history. -/
def track_api_call (t : CostTracker) (month : String) (e : CostEntry) :
    CostTracker :=
  { t with costs := addEntry month e t.costs }

/-- `CostTracker.get_month_cost`: total recorded cost of a month. -/
def get_month_cost (t : CostTracker) (month : String) : ℚ :=
  ((monthEntries t month).map CostEntry.cost).sum

/-- Return value of `CostTracker.get_budget_status`. -/
structure BudgetStatus where
  budget : ℚ
  spent : ℚ
  remaining : ℚ
  percent_used : ℚ
  alert_threshold_reached : Bool
deriving Repr, DecidableEq

/-- `CostTracker.get_budget_status` for the current month. -/
def get_budget_status (t : CostTracker) (current_month : String) :
    BudgetStatus :=
  let spent := get_month_cost t current_month
  let percent := if t.budget > 0 then spent / t.budget * 100 else 0
  { budget := t.budget
    spent := spent
    remaining := t.budget - spent
    percent_used := percent
    alert_threshold_reached := decide (percent ≥ t.alert_threshold * 100) }

/-- `CostTracker.can_afford`: advisory affordability check comparing
`spent + estimate` against the budget (the formatted dollar amounts of
the refusal reason are elided). -/
def can_afford (t : CostTracker) (current_month : String)
    (estimated_cost : ℚ) : Bool × String :=
  let status := get_budget_status t current_month
  if status.spent + estimated_cost > t.budget then
    (false, "Would exceed budget")
  else
    (true, "Within budget")

/-! ## Stage Contract and stage implementations (`agents/*.py`) -/

/-- Modelled from the spec: the Stage Contract envelope (`base_agent.py`
with `AgentInput`/`AgentOutput`) is not among the repository files here;
per the spec every stage produces `{success, results, artifacts,
metadata, educationalNotes, nextSteps, tokensUsed, costUsd}`, and on
failure `results.error` carries a human-readable cause.  The embedding
keeps the `error` key of `results` (the only `results` key the claims
inspect); unset envelope fields default to empty as the constructor
calls in the agents rely on. -/
structure AgentOutput where
  success : Bool
  results_error : Option String
  artifacts : List String
  educational_notes : String
  next_steps : List String
  tokens_used : Nat
  cost_usd : ℚ
deriving Repr, DecidableEq

/-- The repeated early-return shape `AgentOutput(success=False,
results={"error": err}, educational_notes=note, tokens_used=0,
cost_usd=0.0)` used by every agent. -/
def failureOutput (err note : String) : AgentOutput :=
  { success := false, results_error := some err, artifacts := []
    educational_notes := note, next_steps := [], tokens_used := 0
    cost_usd := 0 }

/-- `_sanitize_for_prompt` (defined identically in agents 2-6): strips
non-printable characters, keeping `\n` and `\t`, and truncates to
`max_length` characters with a `...` suffix.  Printability
(`str.isprintable`) is modelled on the ASCII range (codepoints 32-126);
no claim inspects sanitized text. -/
def sanitize_for_prompt (text : String) (max_length : Nat) : String :=
  if text = "" then ""
  else
    let s := String.mk (text.data.filter (fun c =>
      (32 ≤ c.toNat && c.toNat ≤ 126) || c == '\n' || c == '\t'))
    if s.length > max_length then s.take max_length ++ "..." else s

/-- The record-selection pattern shared by stages 4-6 (the Stage
Resolver): with a truthy explicit id, look it up in the project's rows
(`next((x for x in rows if x[id] == explicit), None)`); otherwise take
the most recent row (`rows[0] if rows else None`, the rows being
sorted newest-first by the getter). -/
def selectRecord (explicit : Option String) (idOf : α → String)
    (rows : List α) : Option α :=
  match explicit with
  | some t => if t = "" then rows.head? else rows.find? (fun x => idOf x == t)
  | none => rows.head?

/-- An element of the JSON array an idea-batch completion returns:
`keys` are the keys present in the object, the named fields the values
consumed downstream (meaningful when the key is present). -/
structure RawIdea where
  keys : List String
  title : String
  description : String
  approach : String
  why_novel : String
  potential_impact : String
  resources_needed : String
  risks : String
deriving Repr, DecidableEq

/-- The `required_keys` list of `IdeaGenerationAgent._parse_ideas`. -/
def required_keys : List String :=
  ["title", "description", "approach", "why_novel", "potential_impact",
   "resources_needed", "risks"]

/-- `IdeaGenerationAgent._parse_ideas`: `none` models a response whose
JSON decoding raises or that is not a list (both return `[]`);
otherwise ideas missing any required key are dropped. -/
def parse_ideas (parsed : Option (List RawIdea)) : List RawIdea :=
  match parsed with
  | none => []
  | some l => l.filter (fun i => required_keys.all (fun k => i.keys.contains k))

/-- External inputs of one `IdeaGenerationAgent.execute` call: token
and cost counters of the gap-analysis and idea-batch completions, the
idea-batch parse outcome, the per-idea scoring parses and counters
(indexed by position), and whether the Obsidian save succeeds. -/
structure Stage2Oracle where
  gaps_tokens : Nat
  gaps_cost : ℚ
  ideas_parsed : Option (List RawIdea)
  ideas_tokens : Nat
  ideas_cost : ℚ
  score_parse : Nat → Option (ℚ × ℚ × ℚ)
  score_tokens : Nat → Nat
  score_cost : Nat → ℚ
  obsidian_ok : Bool

/-- A surviving idea together with its scores, as Stage 2 builds it. -/
def toScoredIdea (i : RawIdea) (s : IdeaScores) : ScoredIdea :=
  { title := i.title, description := i.description, approach := i.approach
    why_novel := i.why_novel, novelty_score := s.novelty
    feasibility_score := s.feasibility, impact_score := s.impact
    overall_score := s.overall }

/-- `IdeaGenerationAgent.execute`: loads the project's papers, fails
without a project id or without papers, parses the idea batch —
failing the stage (while charging the completions made so far) when no
valid idea survives — then scores each idea, ranks by `overall_score`
descending and reports success.  The narrative educational note and the
stage-specific `results` payload are elided (no claim inspects them). -/
def IdeaGenerationAgent.execute (db : Database) (project_id : String)
    (o : Stage2Oracle) : AgentOutput :=
  if project_id = "" then
    failureOutput "project_id required"
      "Agent 2 needs papers from Agent 1 to generate ideas."
  else
    let papers := db.get_papers project_id
    if papers.isEmpty then
      failureOutput "No papers found for this project"
        "Run Agent 1 (Literature Review) first to gather papers."
    else
      let ideas := parse_ideas o.ideas_parsed
      if ideas.isEmpty then
        { success := false
          results_error := some "Failed to generate valid ideas"
          artifacts := []
          educational_notes := "The LLM output was malformed. Try again."
          next_steps := []
          tokens_used := o.gaps_tokens + o.ideas_tokens
          cost_usd := o.gaps_cost + o.ideas_cost }
      else
        let scored := ideas.enum.map (fun p =>
          toScoredIdea p.2 (score_idea (o.score_parse p.1)))
        let _ranked := sortDescBy ScoredIdea.overall_score scored
        { success := true
          results_error := none
          artifacts := if o.obsidian_ok then ["research_ideas.md"] else []
          educational_notes := ""
          next_steps :=
            ["Review the top 3 ideas in your Obsidian vault",
             "Select 1-2 ideas for hypothesis formation (Agent 3)",
             "Consider resource requirements before proceeding",
             "Discuss ideas with domain experts for validation"]
          tokens_used := o.gaps_tokens + o.ideas_tokens +
            ((List.range ideas.length).map o.score_tokens).sum
          cost_usd := o.gaps_cost + o.ideas_cost +
            ((List.range ideas.length).map o.score_cost).sum }

/-- Parse target of `HypothesisFormationAgent._generate_hypothesis`:
a JSON object whose keys may be absent. -/
structure HypJson where
  hypothesis : Option String
  null_hypothesis : Option String
deriving Repr, DecidableEq

/-- `HypothesisFormationAgent._generate_hypothesis`, parse component:
a decode failure, or a decoded object without the `hypothesis` key,
falls back to a templated hypothesis built from the sanitized idea
title and description. -/
def generate_hypothesis (idea : ScoredIdea) (parsed : Option HypJson) :
    String × Option String :=
  let title := sanitize_for_prompt idea.title 150
  let description := sanitize_for_prompt idea.description 400
  let fallback : String × Option String :=
    ("Investigating " ++ title ++ " will reveal significant insights about "
       ++ description.take 50,
     some "No significant effect will be observed")
  match parsed with
  | some d =>
    match d.hypothesis with
    | some h => (h, d.null_hypothesis)
    | none => fallback
  | none => fallback

/-- Parse target of `HypothesisFormationAgent._identify_variables`:
`none` for a key that is absent or not a list (both are reset to
`[]`). -/
structure VarsJson where
  independent : Option (List String)
  dependent : Option (List String)
  control : Option (List String)
deriving Repr, DecidableEq

/-- `HypothesisFormationAgent._identify_variables`, parse component:
decode failure falls back to fixed placeholder variables; individual
missing keys become `[]`. -/
def identify_variables (parsed : Option VarsJson) :
    List String × List String × List String :=
  match parsed with
  | some d => (d.independent.getD [], d.dependent.getD [], d.control.getD [])
  | none => (["treatment_condition"], ["outcome_metric"], ["baseline_factors"])

/-- Parse target of `HypothesisFormationAgent._define_success_criteria`. -/
structure CritJson where
  significance_level : Option ℚ
  minimum_effect_size : Option ℚ
  minimum_sample_size : Option Nat
  metrics : Option (List (String × String))
deriving Repr, DecidableEq

/-- `HypothesisFormationAgent._define_success_criteria`, parse
component: a decode failure falls back to the fixed default criteria;
a decoded object has each missing key filled with its default. -/
def define_success_criteria (parsed : Option CritJson) : SuccessCriteria :=
  match parsed with
  | some d =>
    { significance_level := some (d.significance_level.getD (5/100))
      minimum_effect_size := some (d.minimum_effect_size.getD (3/10))
      minimum_sample_size := some (d.minimum_sample_size.getD 100)
      metrics := d.metrics.getD [] }
  | none =>
    { significance_level := some (5/100)
      minimum_effect_size := some (3/10)
      minimum_sample_size := some 100
      metrics := [("primary_outcome", "measure_change")] }

/-- External inputs of one `HypothesisFormationAgent.execute` call. -/
structure Stage3Oracle where
  hyp_parsed : Option HypJson
  hyp_tokens : Nat
  hyp_cost : ℚ
  vars_parsed : Option VarsJson
  vars_tokens : Nat
  vars_cost : ℚ
  crit_parsed : Option CritJson
  crit_tokens : Nat
  crit_cost : ℚ
  uuid_hex : String
  obsidian_ok : Bool
  now : Nat

/-- `HypothesisFormationAgent.execute`: resolves the latest completed
Agent-2 run, selects the named or top-ranked idea, runs the three
completions with their independent fallbacks, stores the hypothesis and
reports success.  The hypothesis metadata (idea scores) and the
narrative note are elided as uninspected. -/
def HypothesisFormationAgent.execute (db : Database) (project_id : String)
    (idea_title : Option String) (o : Stage3Oracle) : AgentOutput × Database :=
  if project_id = "" then
    (failureOutput "project_id required" "Agent 3 needs a project to work with.",
     db)
  else
    let completed := sortDescBy AgentRun.completed_at (db.agent_runs.filter
      (fun r => r.project_id == project_id &&
        r.agent_name == "IdeaGenerationAgent" && r.status == "completed"))
    match completed.head? with
    | none =>
      (failureOutput "No ideas found. Run Agent 2 first."
        "Run Agent 2 (Idea Generation) first to generate ideas.", db)
    | some run =>
      let ideas := run.results_ideas.getD []
      match ideas with
      | [] =>
        (failureOutput "No ideas in Agent 2 output"
          "Agent 2 didn't produce any ideas.", db)
      | top :: _ =>
        let selected : Option ScoredIdea :=
          match idea_title with
          | some t =>
            if t = "" then some top else ideas.find? (fun i => i.title == t)
          | none => some top
        match selected with
        | none =>
          (failureOutput ("Idea '" ++ idea_title.getD "" ++ "' not found")
            "Specify a valid idea title from Agent 2 output.", db)
        | some idea =>
          let hyp := generate_hypothesis idea o.hyp_parsed
          let vars := identify_variables o.vars_parsed
          let criteria := define_success_criteria o.crit_parsed
          let hypothesis_id := "hyp_" ++ o.uuid_hex
          let db2 := db.add_hypothesis hypothesis_id project_id idea.title
            hyp.1 hyp.2 vars.1 vars.2.1 vars.2.2 criteria "idea_scores" o.now
          ({ success := true
             results_error := none
             artifacts := if o.obsidian_ok then [hypothesis_id ++ ".md"] else []
             educational_notes := ""
             next_steps :=
               ["Review the hypothesis in your Obsidian vault",
                "Validate that variables are measurable",
                "Run Agent 4 to design experiments",
                "Consider ethical implications"]
             tokens_used := o.hyp_tokens + o.vars_tokens + o.crit_tokens
             cost_usd := o.hyp_cost + o.vars_cost + o.crit_cost }, db2)

/-- `ExperimentDesignAgent._define_data_requirements`, parse component:
a decode failure falls back to the fixed synthetic-data requirements. -/
def define_data_requirements (parsed : Option DataRequirements) :
    DataRequirements :=
  match parsed with
  | some d => d
  | none =>
    { dataset_source := some "synthetic_data", min_samples := some 1000
      required_features := ["input", "output"], data_format := some "CSV" }

/-- `ExperimentDesignAgent._estimate_resources`: pure sample-size
bucketing. -/
def estimate_resources (data_req : DataRequirements) : ResourceEstimate :=
  let sample_size := data_req.min_samples.getD 1000
  let bucket : String × ℚ :=
    if sample_size < 1000 then ("< 5 minutes", 0)
    else if sample_size < 10000 then ("5-30 minutes", 0)
    else ("30-120 minutes", 1/10)
  { estimated_compute_time := bucket.1, estimated_cost_usd := bucket.2
    platform := "local", memory_gb := 4, storage_gb := 1 }

/-- `ExperimentDesignAgent._generate_code_template`: a deterministic
render (no generative call) from the hypothesis and data requirements;
the full Python template text is abbreviated to its data-dependent
header (no claim inspects it). -/
def generate_code_template (hyp : Hypothesis) (data_req : DataRequirements) :
    String :=
  "Experiment: " ++ hyp.hypothesis_text.take 60 ++ "... DATA_SOURCE = " ++
    data_req.dataset_source.getD "data.csv"

/-- External inputs of one `ExperimentDesignAgent.execute` call. -/
structure Stage4Oracle where
  methodology : String
  meth_tokens : Nat
  meth_cost : ℚ
  datareq_parsed : Option DataRequirements
  datareq_tokens : Nat
  datareq_cost : ℚ
  uuid_hex : String
  obsidian_ok : Bool
  now : Nat

/-- `ExperimentDesignAgent.execute`: resolves the named or most recent
hypothesis, runs the methodology and data-requirements completions
(the latter with fallback), estimates resources, renders the code
template, stores the design and reports success. -/
def ExperimentDesignAgent.execute (db : Database) (project_id : String)
    (hypothesis_id : Option String) (o : Stage4Oracle) :
    AgentOutput × Database :=
  if project_id = "" then
    (failureOutput "project_id required" "Agent 4 needs a project to work with.",
     db)
  else
    let hypotheses := db.get_hypotheses project_id none
    match selectRecord hypothesis_id Hypothesis.id hypotheses with
    | none =>
      (failureOutput "No hypothesis found. Run Agent 3 first."
        "Run Agent 3 (Hypothesis Formation) first.", db)
    | some hyp =>
      let data_req := define_data_requirements o.datareq_parsed
      let resources := estimate_resources data_req
      let code_template := generate_code_template hyp data_req
      let design_id := "exp_" ++ o.uuid_hex
      let db2 := db.add_experiment_design design_id hyp.id project_id
        o.methodology data_req (some code_template) resources "local"
        "domain" o.now
      ({ success := true
         results_error := none
         artifacts := if o.obsidian_ok then [design_id ++ ".md"] else []
         educational_notes := ""
         next_steps :=
           ["Review experiment design in Obsidian",
            "Verify data requirements are feasible",
            "Run Agent 5 to execute experiment",
            "Ensure compute resources are available"]
         tokens_used := o.meth_tokens + o.datareq_tokens
         cost_usd := o.meth_cost + o.datareq_cost }, db2)

/-- One database call Stage 5 makes, in order (the run insert and the
terminal update are the only writes it issues). -/
inductive DbOp where
  | addRun (run_id design_id project_id platform metadata : String) (now : Nat)
  | updateRun (run_id : String) (status : Option String)
      (results_data : Option ResultsData) (logs error2 : Option String)
      (duration_seconds compute_cost_usd : Option ℚ) (now : Nat)
deriving Repr, DecidableEq

/-- Replay one Stage-5 database call against the store. -/
def applyDbOp (db : Database) : DbOp → Database
  | .addRun rid did pid plat md now => db.add_experiment_run rid did pid plat md now
  | .updateRun rid st rd lg er du cc now =>
    db.update_experiment_run rid st rd lg er du cc now

/-- Replay a Stage-5 call sequence. -/
def applyDbOps (db : Database) (ops : List DbOp) : Database :=
  ops.foldl applyDbOp db

/-- The successive `status` values an op sequence writes for `run_id`:
the insert writes `queued`; an update writes its status argument when
it is supplied and truthy. -/
def statusWrites (run_id : String) (ops : List DbOp) : List String :=
  ops.filterMap (fun op =>
    match op with
    | .addRun rid _ _ _ _ _ => if rid == run_id then some "queued" else none
    | .updateRun rid st _ _ _ _ _ _ =>
      if rid == run_id && pyTruthy st then st else none)

/-- External inputs of one `ExperimentExecutionAgent.execute` call:
the generated run uuid, the wall-clock instants, and whether the
simulated-execution block raises (`some msg` = an exception with
message `msg`; the block is pure in the source, so in practice it does
not raise, but the agent handles it). -/
structure Stage5Oracle where
  uuid_hex : String
  start_time : Nat
  end_time : Nat
  exec_error : Option String
  obsidian_ok : Bool

/-- The fixed simulated metrics block of Stage 5. -/
def fixedMetrics : List (String × ℚ) :=
  [("accuracy", 85/100), ("precision", 82/100), ("recall", 88/100),
   ("f1_score", 85/100)]

/-- `ExperimentExecutionAgent.execute`: resolves the named or most
recent design, inserts a fresh `queued` run, then either completes it
with the fixed synthetic results (success) or marks it `failed` with
the exception message; no LLM call is made.  Returned alongside the
output is the exact sequence of database calls issued. -/
def ExperimentExecutionAgent.execute (db : Database) (project_id : String)
    (design_id : Option String) (o : Stage5Oracle) :
    AgentOutput × List DbOp :=
  if project_id = "" then
    (failureOutput "project_id required" "Agent 5 needs a project to work with.",
     [])
  else
    let designs := db.get_experiment_designs none (some project_id)
    match selectRecord design_id ExperimentDesign.id designs with
    | none =>
      (failureOutput "No experiment design found. Run Agent 4 first."
        "Run Agent 4 (Experiment Design) first.", [])
    | some design =>
      let run_id := "run_" ++ o.uuid_hex
      let addOp := DbOp.addRun run_id design.id project_id "local" "automated"
        o.start_time
      let duration : ℚ := ((o.end_time - o.start_time : Nat) : ℚ)
      match o.exec_error with
      | none =>
        let results_data : ResultsData :=
          { status := "completed"
            samples_processed := design.data_requirements.min_samples.getD 1000
            metrics := fixedMetrics
            execution_time_seconds := 453/10 }
        let updOp := DbOp.updateRun run_id (some "completed")
          (some results_data) (some "Execution log") none (some duration)
          (some 0) o.end_time
        ({ success := true
           results_error := none
           artifacts := if o.obsidian_ok then [run_id ++ ".md"] else []
           educational_notes := ""
           next_steps :=
             ["Review experimental results in Obsidian",
              "Run Agent 6 to analyze results",
              "Validate data quality",
              "Compare with expected outcomes"]
           tokens_used := 0
           cost_usd := 0 }, [addOp, updOp])
      | some msg =>
        let updOp := DbOp.updateRun run_id (some "failed") none none
          (some msg) (some duration) none o.end_time
        ({ success := false
           results_error := some msg
           artifacts := []
           educational_notes := "Execution failed: " ++ msg
           next_steps := []
           tokens_used := 0
           cost_usd := 0 }, [addOp, updOp])

/-- External inputs of one `ResultsAnalysisAgent.execute` call. -/
structure Stage6Oracle where
  insights : String
  insights_tokens : Nat
  insights_cost : ℚ
  uuid_hex : String
  obsidian_ok : Bool
  now : Nat

/-- `ResultsAnalysisAgent.execute`: resolves the named or most recent
run and requires its `results_data`, loads the run's design and
hypothesis, simulates the statistics, requests the insights
completion, derives the decision, stores the analysis and reports
success. -/
def ResultsAnalysisAgent.execute (db : Database) (project_id : String)
    (run_id : Option String) (o : Stage6Oracle) : AgentOutput × Database :=
  if project_id = "" then
    (failureOutput "project_id required" "Agent 6 needs a project to work with.",
     db)
  else
    let runs := db.get_experiment_runs none (some project_id)
    match selectRecord run_id ExperimentRun.id runs with
    | none =>
      (failureOutput "No completed experiment run found. Run Agent 5 first."
        "Run Agent 5 (Experiment Execution) first.", db)
    | some run =>
      match run.results_data with
      | none =>
        (failureOutput "No completed experiment run found. Run Agent 5 first."
          "Run Agent 5 (Experiment Execution) first.", db)
      | some rd =>
        let designs := db.get_experiment_designs none (some project_id)
        match designs.find? (fun d => d.id == run.design_id) with
        | none =>
          (failureOutput "Design not found for this run"
            "Database inconsistency detected.", db)
        | some design =>
          let hyps := db.get_hypotheses project_id none
          match hyps.find? (fun h => h.id == design.hypothesis_id) with
          | none =>
            (failureOutput "Hypothesis not found for this run"
              "Database inconsistency detected.", db)
          | some hyp =>
            let stats := perform_statistical_analysis rd hyp.success_criteria
            let decision := make_decision stats hyp.success_criteria
            let analysis_id := "analysis_" ++ o.uuid_hex
            let db2 := db.add_analysis analysis_id run.id project_id hyp.id
              decision (some stats.p_value) (some stats.effect_size)
              [("lower", stats.ci_lower), ("upper", stats.ci_upper)]
              (some o.insights) [] "domain" o.now
            ({ success := true
               results_error := none
               artifacts := if o.obsidian_ok then [analysis_id ++ ".md"] else []
               educational_notes := ""
               next_steps :=
                 ["Review analysis in Obsidian vault",
                  "Interpret results in context of domain knowledge",
                  "Consider limitations and future work",
                  "Document findings and next research directions"]
               tokens_used := o.insights_tokens
               cost_usd := o.insights_cost }, db2)

/-- The string `s` starts with the string `p`. -/
def StartsWith (s p : String) : Prop := ∃ t, s = p ++ t

/-- The string `s` mentions the string `p` as a substring. -/
def Mentions (s p : String) : Prop := ∃ a b, s = a ++ p ++ b

/-! ## Concrete fixtures used by counterexamples and witnesses -/

/-- The empty store. -/
def dbEmpty : Database :=
  { papers := [], hypotheses := [], experiment_designs := []
    experiment_runs := [], analyses := [], agent_runs := [] }

/-- A paper of project `proj`: high relevance, added first. -/
def paperA : Paper :=
  { arxiv_id := "arxA", title := "A", authors := ["x"], abstract := "aa"
    published_date := none, pdf_url := none, relevance_score := 9
    project_id := "proj", added_at := 1 }

/-- A paper of project `proj`: low relevance, added later. -/
def paperB : Paper :=
  { arxiv_id := "arxB", title := "B", authors := ["y"], abstract := "bb"
    published_date := none, pdf_url := none, relevance_score := 1
    project_id := "proj", added_at := 2 }

/-- Store holding the two papers. -/
def dbTwoPapers : Database := { dbEmpty with papers := [paperA, paperB] }

/-- Store holding one paper (a valid Stage-2 predecessor). -/
def dbOnePaper : Database := { dbEmpty with papers := [paperA] }

/-- Stage-2 oracle whose idea-batch completion is malformed
(`json.loads` raises), with the two earlier completions charged. -/
def stage2MalformedOracle : Stage2Oracle :=
  { gaps_tokens := 100, gaps_cost := 1/100, ideas_parsed := none
    ideas_tokens := 200, ideas_cost := 2/100, score_parse := fun _ => none
    score_tokens := fun _ => 0, score_cost := fun _ => 0, obsidian_ok := true }

/-- A scored idea as Agent 2 stores it. -/
def ideaA : ScoredIdea :=
  { title := "I1", description := "d", approach := "ap", why_novel := "wn"
    novelty_score := 7, feasibility_score := 6, impact_score := 8
    overall_score := 69/10 }

/-- Store holding a completed Agent-2 run with one idea (a valid
Stage-3 predecessor). -/
def dbWithIdeas : Database :=
  { dbEmpty with agent_runs :=
      [{ project_id := "proj", agent_name := "IdeaGenerationAgent"
         status := "completed", completed_at := 3
         results_ideas := some [ideaA] }] }

/-- Stage-3 oracle on which all three structured extractions fail. -/
def stage3FallbackOracle : Stage3Oracle :=
  { hyp_parsed := none, hyp_tokens := 10, hyp_cost := 1/10
    vars_parsed := none, vars_tokens := 20, vars_cost := 1/5
    crit_parsed := none, crit_tokens := 30, crit_cost := 3/10
    uuid_hex := "u3", obsidian_ok := false, now := 7 }

/-- Stage-4 oracle (data-requirements parse fails). -/
def stage4Oracle1 : Stage4Oracle :=
  { methodology := "meth", meth_tokens := 10, meth_cost := 0
    datareq_parsed := none, datareq_tokens := 5, datareq_cost := 0
    uuid_hex := "u4", obsidian_ok := false, now := 8 }

/-- An experiment design of project `proj`. -/
def designA : ExperimentDesign :=
  { id := "exp_d1", hypothesis_id := "hyp_h1", project_id := "proj"
    methodology := "m"
    data_requirements :=
      { dataset_source := some "synthetic_data", min_samples := some 500
        required_features := [], data_format := some "CSV" }
    code_template := none
    resource_estimates :=
      { estimated_compute_time := "< 5 minutes", estimated_cost_usd := 0
        platform := "local", memory_gb := 4, storage_gb := 1 }
    platform := "local", status := "draft", created_at := 5, metadata := "" }

/-- Store holding one design (a valid Stage-5 predecessor). -/
def dbOneDesign : Database := { dbEmpty with experiment_designs := [designA] }

/-- Stage-5 oracle for a successful simulated execution. -/
def stage5Oracle1 : Stage5Oracle :=
  { uuid_hex := "abc123", start_time := 10, end_time := 20
    exec_error := none, obsidian_ok := true }

/-- Stage-6 oracle. -/
def stage6Oracle1 : Stage6Oracle :=
  { insights := "ins", insights_tokens := 9, insights_cost := 0
    uuid_hex := "u6", obsidian_ok := false, now := 9 }

/-- A stored hypothesis of project `proj` (a valid Stage-4
predecessor). -/
def hypA : Hypothesis :=
  { id := "hyp_h1", project_id := "proj", idea_title := "I1"
    hypothesis_text := "H", null_hypothesis := none
    independent_variables := [], dependent_variables := []
    control_variables := []
    success_criteria :=
      { significance_level := some (5/100)
        minimum_effect_size := some (3/10)
        minimum_sample_size := some 100, metrics := [] }
    status := "pending", created_at := 4, metadata := "" }

/-- Store holding one hypothesis. -/
def dbOneHyp : Database := { dbEmpty with hypotheses := [hypA] }

/-- An experiment run of project `proj` without results. -/
def runNoResults : ExperimentRun :=
  { id := "run_r1", design_id := "exp_d1", project_id := "proj"
    status := "queued", platform := "local", started_at := 11
    completed_at := none, duration_seconds := none, compute_cost_usd := 0
    results_data := none, logs := none, error := none, metadata := "" }

/-! ## Helper lemmas about the embedding -/

theorem mem_insertDescBy [LinearOrder κ] (key : α → κ) (x z : α)
    (l : List α) : z ∈ insertDescBy key x l ↔ z = x ∨ z ∈ l := by
  induction l with
  | nil => simp [insertDescBy]
  | cons y ys ih =>
    rw [insertDescBy]
    by_cases h : key y ≤ key x
    · simp [h]
    · simp only [h, if_false, List.mem_cons, ih]
      tauto

theorem pairwise_insertDescBy [LinearOrder κ] (key : α → κ) (x : α)
    (l : List α) (h : l.Pairwise (fun a b => key b ≤ key a)) :
    (insertDescBy key x l).Pairwise (fun a b => key b ≤ key a) := by
  induction l with
  | nil => simp [insertDescBy]
  | cons y ys ih =>
    rw [List.pairwise_cons] at h
    obtain ⟨h1, h2⟩ := h
    rw [insertDescBy]
    by_cases hxy : key y ≤ key x
    · rw [if_pos hxy]
      refine List.Pairwise.cons ?_ (List.Pairwise.cons h1 h2)
      intro z hz
      rcases List.mem_cons.mp hz with rfl | hz
      · exact hxy
      · exact le_trans (h1 z hz) hxy
    · rw [if_neg hxy]
      refine List.Pairwise.cons ?_ (ih h2)
      intro z hz
      rcases (mem_insertDescBy key x z ys).mp hz with rfl | hz
      · exact le_of_not_le hxy
      · exact h1 z hz

theorem pairwise_sortDescBy [LinearOrder κ] (key : α → κ) (l : List α) :
    (sortDescBy key l).Pairwise (fun a b => key b ≤ key a) := by
  induction l with
  | nil => simp [sortDescBy]
  | cons x xs ih =>
    rw [sortDescBy]
    exact pairwise_insertDescBy key x _ ih

theorem mem_sortDescBy [LinearOrder κ] (key : α → κ) (z : α) (l : List α) :
    z ∈ sortDescBy key l ↔ z ∈ l := by
  induction l with
  | nil => simp [sortDescBy]
  | cons x xs ih =>
    rw [sortDescBy, mem_insertDescBy]
    simp [ih]

theorem mem_of_head?_eq_some {l : List α} {a : α} (h : l.head? = some a) :
    a ∈ l := by
  cases l with
  | nil => simp at h
  | cons x xs =>
    simp only [List.head?, Option.some.injEq] at h
    exact h ▸ List.mem_cons_self x xs

theorem selectRecord_nil (explicit : Option String) (idOf : α → String) :
    selectRecord explicit idOf ([] : List α) = none := by
  rcases explicit with _ | t
  · rfl
  · rw [selectRecord]
    split <;> rfl

theorem mem_of_selectRecord {explicit : Option String} {idOf : α → String}
    {rows : List α} {r : α} (h : selectRecord explicit idOf rows = some r) :
    r ∈ rows := by
  rcases explicit with _ | t
  · exact mem_of_head?_eq_some h
  · rw [selectRecord] at h
    by_cases ht : t = ""
    · rw [if_pos ht] at h
      exact mem_of_head?_eq_some h
    · rw [if_neg ht] at h
      exact List.mem_of_find?_eq_some h

theorem filter_upsertBy (key : α → String) (r : α) (t : List α) :
    (upsertBy key r t).filter (fun x => key x == key r) = [r] := by
  rw [upsertBy, List.filter_cons]
  simp only [beq_self_eq_true, if_true]
  have h : (t.filter (fun x => key x != key r)).filter
      (fun x => key x == key r) = [] := by
    induction t with
    | nil => rfl
    | cons a as ih =>
      rw [List.filter_cons]
      by_cases hk : key a = key r
      · simp [hk, ih]
      · simp [List.filter_cons, hk, ih]
  rw [h]

/-! ## Claim theorems -/

/-- Claim C1: the Stage-6 decision label is a pure function of
`(p_value, significance_level, effect_size, minimum_effect_size)`
computed by the fixed 4-way ACCEPT / ACCEPT (weak) / INCONCLUSIVE /
REJECT rule; in particular `(0.03, 0.05, 0.6, 0.3)` yields the label
starting `ACCEPT - Strong evidence`, `p = 0.15, sig = 0.05` yields
`REJECT - ...` and `p = 0.08, sig = 0.05` yields `INCONCLUSIVE - ...`
(for every effect size and minimum effect size). -/
theorem stage6_decision_rule :
    (∀ rd crit, make_decision (perform_statistical_analysis rd crit) crit =
      decisionLabel (perform_statistical_analysis rd crit).p_value
        (crit.significance_level.getD (5/100))
        (perform_statistical_analysis rd crit).effect_size
        (crit.minimum_effect_size.getD (3/10))) ∧
    (∀ p sig e m : ℚ, decisionLabel p sig e m =
      if p < sig ∧ m ≤ |e| then
        "ACCEPT - Strong evidence supports hypothesis"
      else if p < sig then
        "ACCEPT (weak) - Statistically significant but small effect"
      else if p < 1/10 then
        "INCONCLUSIVE - Marginally significant, needs more data"
      else
        "REJECT - Insufficient evidence to support hypothesis") ∧
    (decisionLabel (3/100) (5/100) (6/10) (3/10) =
      "ACCEPT - Strong evidence supports hypothesis") ∧
    StartsWith (decisionLabel (3/100) (5/100) (6/10) (3/10))
      "ACCEPT - Strong evidence" ∧
    (∀ e m : ℚ, decisionLabel (15/100) (5/100) e m =
      "REJECT - Insufficient evidence to support hypothesis") ∧
    (∀ e m : ℚ, decisionLabel (8/100) (5/100) e m =
      "INCONCLUSIVE - Marginally significant, needs more data") := by
  refine ⟨?_, ?_, ?_, ?_, ?_, ?_⟩
  · intro rd crit
    rfl
  · intro p sig e m
    simp only [decisionLabel, make_decision, decide_eq_true_eq, ge_iff_le]
    rcases lt_or_le p sig with hsig | hsig
    · rcases le_or_lt m |e| with hm | hm
      · simp [hsig, hm]
      · simp [hsig, hm, not_le.mpr hm]
    · simp [not_lt.mpr hsig]
  · norm_num [decisionLabel, make_decision, abs_of_nonneg]
  · refine ⟨" supports hypothesis", ?_⟩
    norm_num [decisionLabel, make_decision, abs_of_nonneg]
    rfl
  · intro e m
    norm_num [decisionLabel, make_decision]
  · intro e m
    norm_num [decisionLabel, make_decision]

/-- Claim C3: for every scored idea, `overall_score` equals exactly
`0.35 * novelty + 0.35 * feasibility + 0.30 * impact` of the (clamped)
component scores, for any parse outcome (including the fallback). -/
theorem overall_score_weighted (parsed : Option (ℚ × ℚ × ℚ)) :
    (score_idea parsed).overall =
      35/100 * (score_idea parsed).novelty +
      35/100 * (score_idea parsed).feasibility +
      30/100 * (score_idea parsed).impact := by
  rcases parsed with _ | ⟨n, f, i⟩
  · norm_num [score_idea]
  · simp only [score_idea, NOVELTY_WEIGHT, FEASIBILITY_WEIGHT, IMPACT_WEIGHT]
    ring

/-- Claim C2: every score produced by numeric extraction lies in
`[1, 10]`: an in-range parse is kept, an out-of-range parse is clamped
to the nearer bound, and an unparsable response yields the fixed
neutral default `5.0` (the stage does not fail); this holds for the
Stage-1 relevance score and for the Stage-2 novelty, feasibility and
impact scores. -/
theorem numeric_scores_clamp_or_default :
    (∀ abstract parsed, 1 ≤ score_relevance abstract parsed ∧
      score_relevance abstract parsed ≤ 10) ∧
    (∀ parsed,
      (1 ≤ (score_idea parsed).novelty ∧ (score_idea parsed).novelty ≤ 10) ∧
      (1 ≤ (score_idea parsed).feasibility ∧
        (score_idea parsed).feasibility ≤ 10) ∧
      (1 ≤ (score_idea parsed).impact ∧ (score_idea parsed).impact ≤ 10)) ∧
    (∀ abstract (x : ℚ), abstract ≠ "" → 1 ≤ x → x ≤ 10 →
      score_relevance abstract (some x) = x) ∧
    (∀ abstract (x : ℚ), abstract ≠ "" → 10 < x →
      score_relevance abstract (some x) = 10) ∧
    (∀ abstract (x : ℚ), abstract ≠ "" → x < 1 →
      score_relevance abstract (some x) = 1) ∧
    (∀ abstract, abstract ≠ "" → score_relevance abstract none = 5) ∧
    (∀ n f i : ℚ, 1 ≤ n → n ≤ 10 →
      (score_idea (some (n, f, i))).novelty = n) ∧
    (score_idea none =
      { novelty := 5, feasibility := 5, impact := 5, overall := 5 }) := by
  have hclamp_lo : ∀ x : ℚ, 1 ≤ clampScore x := fun x => le_max_left 1 _
  have hclamp_hi : ∀ x : ℚ, clampScore x ≤ 10 := fun x =>
    max_le (by norm_num) (min_le_left 10 x)
  have hclamp_id : ∀ x : ℚ, 1 ≤ x → x ≤ 10 → clampScore x = x := by
    intro x h1 h10
    rw [clampScore, min_eq_right h10, max_eq_right h1]
  refine ⟨?_, ?_, ?_, ?_, ?_, ?_, ?_, ?_⟩
  · intro abstract parsed
    by_cases h : abstract = ""
    · simp [score_relevance, h]
      norm_num
    · rcases parsed with _ | x
      · simp [score_relevance, h]
        norm_num
      · simp only [score_relevance, h, if_neg h]
        exact ⟨hclamp_lo x, hclamp_hi x⟩
  · intro parsed
    rcases parsed with _ | ⟨n, f, i⟩
    · simp [score_idea]
      norm_num
    · simp only [score_idea]
      exact ⟨⟨hclamp_lo n, hclamp_hi n⟩, ⟨hclamp_lo f, hclamp_hi f⟩,
        ⟨hclamp_lo i, hclamp_hi i⟩⟩
  · intro abstract x h h1 h10
    simp only [score_relevance, if_neg h]
    exact hclamp_id x h1 h10
  · intro abstract x h h10
    simp only [score_relevance, if_neg h, clampScore]
    rw [min_eq_left (le_of_lt h10)]
    norm_num
  · intro abstract x h h1
    simp only [score_relevance, if_neg h, clampScore]
    rw [min_eq_right (le_of_lt (lt_trans h1 (by norm_num))),
      max_eq_left (le_of_lt h1)]
  · intro abstract h
    simp [score_relevance, h]
  · intro n f i h1 h10
    simp only [score_idea]
    exact hclamp_id n h1 h10
  · rfl

/-- Witness for C2: concrete extractions — an in-range parse `7.5` is
kept, `42` is clamped to `10`, `0.2` is clamped to `1`, and an
unparsable response yields `5`. -/
theorem numeric_scores_clamp_or_default_witness :
    score_relevance "aa" (some (15/2)) = 15/2 ∧
    score_relevance "aa" (some 42) = 10 ∧
    score_relevance "aa" (some (1/5)) = 1 ∧
    score_relevance "aa" none = 5 ∧
    (score_idea (some (7, 6, 8))).novelty = 7 :=
  ⟨numeric_scores_clamp_or_default.2.2.1 "aa" (15/2) (by decide)
      (by norm_num) (by norm_num),
   numeric_scores_clamp_or_default.2.2.2.1 "aa" 42 (by decide) (by norm_num),
   numeric_scores_clamp_or_default.2.2.2.2.1 "aa" (1/5) (by decide)
      (by norm_num),
   numeric_scores_clamp_or_default.2.2.2.2.2.1 "aa" (by decide),
   numeric_scores_clamp_or_default.2.2.2.2.2.2.1 7 6 8 (by norm_num)
      (by norm_num)⟩

/-- Claim C9: with a `$2.00` monthly budget, after three `$1.00`
spends in one month the alert flag holds exactly from the first
recording whose cumulative spend reaches `alert_threshold * budget`;
`can_afford 0.50` is refused whenever the month's spend has reached
the budget; and recording a spend only appends to the month's history
(the alert is advisory: it changes no state and aborts nothing). -/
theorem budget_guard_behavior :
    (∀ (th : ℚ) (m a1 a2 a3 : String) (t1 t2 t3 : Nat),
      let tr0 : CostTracker := { budget := 2, alert_threshold := th, costs := [] }
      let tr1 := track_api_call tr0 m ⟨a1, t1, 1⟩
      let tr2 := track_api_call tr1 m ⟨a2, t2, 1⟩
      let tr3 := track_api_call tr2 m ⟨a3, t3, 1⟩
      ((get_budget_status tr1 m).alert_threshold_reached = true ↔ 1 ≥ th * 2) ∧
      ((get_budget_status tr2 m).alert_threshold_reached = true ↔ 2 ≥ th * 2) ∧
      ((get_budget_status tr3 m).alert_threshold_reached = true ↔ 3 ≥ th * 2)) ∧
    (∀ (tr : CostTracker) (m : String), tr.budget = 2 →
      get_month_cost tr m ≥ 2 → (can_afford tr m (1/2)).1 = false) ∧
    (∀ (tr : CostTracker) (m : String) (e : CostEntry),
      (track_api_call tr m e).costs = addEntry m e tr.costs ∧
      (track_api_call tr m e).budget = tr.budget ∧
      (track_api_call tr m e).alert_threshold = tr.alert_threshold) := by
  refine ⟨?_, ?_, ?_⟩
  · intro th m a1 a2 a3 t1 t2 t3
    refine ⟨?_, ?_, ?_⟩
    all_goals
      simp only [get_budget_status, track_api_call, addEntry, monthEntries,
        get_month_cost, List.lookup, beq_self_eq_true, if_true,
        decide_eq_true_eq]
    all_goals norm_num
    all_goals constructor <;> intro h <;> linarith
  · intro tr m hb hs
    have hcond : get_month_cost tr m + 1/2 > tr.budget := by
      rw [hb]
      linarith
    simp only [can_afford, get_budget_status]
    rw [if_pos hcond]
  · intro tr m e
    exact ⟨rfl, rfl, rfl⟩

/-- Witness for C9: threshold `0.8`, budget `$2.00`, three `$1.00`
spends — the alert is off after the first spend (`1 < 1.6`), on after
the second and third, and `can_afford 0.50` is refused once spend
reaches the budget. -/
theorem budget_guard_behavior_witness :
    (let tr0 : CostTracker :=
      { budget := 2, alert_threshold := 8/10, costs := [] }
     let tr1 := track_api_call tr0 "2025-10" ⟨"A", 10, 1⟩
     let tr2 := track_api_call tr1 "2025-10" ⟨"B", 20, 1⟩
     let tr3 := track_api_call tr2 "2025-10" ⟨"C", 30, 1⟩
     (get_budget_status tr1 "2025-10").alert_threshold_reached = false ∧
     (get_budget_status tr2 "2025-10").alert_threshold_reached = true ∧
     (get_budget_status tr3 "2025-10").alert_threshold_reached = true ∧
     (can_afford tr3 "2025-10" (1/2)).1 = false) := by
  have h := budget_guard_behavior.1 (8/10) "2025-10" "A" "B" "C" 10 20 30
  have hc := budget_guard_behavior.2.1
  refine ⟨?_, ?_, ?_, ?_⟩
  · have := h.1
    simp only at this ⊢
    rw [Bool.eq_false_iff]
    intro hh
    have := this.mp hh
    linarith
  · exact h.2.1.mpr (by norm_num)
  · exact h.2.2.mpr (by norm_num)
  · refine hc _ "2025-10" rfl ?_
    simp [track_api_call, addEntry, monthEntries, get_month_cost, List.lookup]
    norm_num

/-- Claim C5: each `add` operation is an idempotent insert-or-replace
upsert — adding twice under the same primary id with different
payloads leaves exactly one stored record with that id, whose columns
come from the second (latest) payload; this holds for papers,
hypotheses, experiment designs, experiment runs and analyses, over any
prior store contents. -/
theorem add_operations_upsert :
    (∀ (db : Database) (id : String) (t1 a1 ab1 p1 t2 a2 ab2 p2)
      (r1 r2 : ℚ) (pd1 pu1 pd2 pu2 : Option String) (n1 n2 : Nat),
      ((db.add_paper id t1 a1 ab1 p1 r1 pd1 pu1 n1).add_paper
          id t2 a2 ab2 p2 r2 pd2 pu2 n2).papers.filter
        (fun p => p.arxiv_id == id) =
      [{ arxiv_id := id, title := t2, authors := a2, abstract := ab2
         published_date := pd2, pdf_url := pu2, relevance_score := r2
         project_id := p2, added_at := n2 }]) ∧
    (∀ (db : Database) (id : String) (p1 i1 h1 p2 i2 h2 : String)
      (nh1 nh2 : Option String) (iv1 dv1 cv1 iv2 dv2 cv2 : List String)
      (c1 c2 : SuccessCriteria) (m1 m2 : String) (n1 n2 : Nat),
      ((db.add_hypothesis id p1 i1 h1 nh1 iv1 dv1 cv1 c1 m1 n1).add_hypothesis
          id p2 i2 h2 nh2 iv2 dv2 cv2 c2 m2 n2).hypotheses.filter
        (fun h => h.id == id) =
      [{ id := id, project_id := p2, idea_title := i2, hypothesis_text := h2
         null_hypothesis := nh2, independent_variables := iv2
         dependent_variables := dv2, control_variables := cv2
         success_criteria := c2, status := "pending", created_at := n2
         metadata := m2 }]) ∧
    (∀ (db : Database) (id : String) (h1 p1 me1 h2 p2 me2 : String)
      (dr1 dr2 : DataRequirements) (ct1 ct2 : Option String)
      (re1 re2 : ResourceEstimate) (pl1 pl2 m1 m2 : String) (n1 n2 : Nat),
      (Database.add_experiment_design
          (db.add_experiment_design id h1 p1 me1 dr1 ct1 re1 pl1 m1 n1)
          id h2 p2 me2 dr2 ct2 re2 pl2 m2 n2).experiment_designs.filter
        (fun d => d.id == id) =
      [{ id := id, hypothesis_id := h2, project_id := p2, methodology := me2
         data_requirements := dr2, code_template := ct2
         resource_estimates := re2, platform := pl2, status := "draft"
         created_at := n2, metadata := m2 }]) ∧
    (∀ (db : Database) (id : String) (d1 p1 pl1 m1 d2 p2 pl2 m2 : String)
      (n1 n2 : Nat),
      ((db.add_experiment_run id d1 p1 pl1 m1 n1).add_experiment_run
          id d2 p2 pl2 m2 n2).experiment_runs.filter
        (fun r => r.id == id) =
      [{ id := id, design_id := d2, project_id := p2, status := "queued"
         platform := pl2, started_at := n2, completed_at := none
         duration_seconds := none, compute_cost_usd := 0
         results_data := none, logs := none, error := none
         metadata := m2 }]) ∧
    (∀ (db : Database) (id : String) (r1 p1 h1 de1 r2 p2 h2 de2 : String)
      (pv1 es1 pv2 es2 : Option ℚ) (ci1 ci2 : List (String × ℚ))
      (in1 in2 : Option String) (v1 v2 : List String) (m1 m2 : String)
      (n1 n2 : Nat),
      (Database.add_analysis
          (db.add_analysis id r1 p1 h1 de1 pv1 es1 ci1 in1 v1 m1 n1)
          id r2 p2 h2 de2 pv2 es2 ci2 in2 v2 m2 n2).analyses.filter
        (fun a => a.id == id) =
      [{ id := id, run_id := r2, project_id := p2, hypothesis_id := h2
         decision := de2, p_value := pv2, effect_size := es2
         confidence_interval := ci2, insights := in2
         visualizations := v2, status := "completed", created_at := n2
         metadata := m2 }]) := by
  refine ⟨?_, ?_, ?_, ?_, ?_⟩ <;>
    { intros
      exact filter_upsertBy _ _ _ }

/-- Counterexample to claim C6: `get_papers` does not return records
newest-first — on a store holding a high-relevance paper added at
instant 1 and a low-relevance paper added at instant 2, it returns the
older paper first (it orders by `relevance_score`, not recency). -/
theorem get_papers_not_newest_first :
    (dbTwoPapers.get_papers "proj").map Paper.added_at = [1, 2] ∧
    ¬ (dbTwoPapers.get_papers "proj").Pairwise
        (fun a b => b.added_at ≤ a.added_at) := by
  have h : dbTwoPapers.get_papers "proj" = [paperA, paperB] := by
    simp only [Database.get_papers, dbTwoPapers, dbEmpty, List.filter]
    norm_num [paperA, paperB, sortDescBy, insertDescBy]
  rw [h]
  refine ⟨rfl, ?_⟩
  intro hp
  rw [List.pairwise_cons] at hp
  have := hp.1 paperB (by simp)
  simp [paperA, paperB] at this

/-- Claim C6 as amended: `get_papers` returns a project's papers
ordered by `relevance_score` descending, while the other four
read-back operations (`get_hypotheses`, `get_experiment_designs`,
`get_experiment_runs`, `get_analyses`) return records newest-first
(descending `created_at`, respectively `started_at`). -/
theorem ledger_readback_ordering :
    (∀ (db : Database) (pid : String),
      (db.get_papers pid).Pairwise
        (fun a b => b.relevance_score ≤ a.relevance_score)) ∧
    (∀ (db : Database) (pid : String) (st : Option String),
      (db.get_hypotheses pid st).Pairwise
        (fun a b => b.created_at ≤ a.created_at)) ∧
    (∀ (db : Database) (hid pid : Option String),
      (db.get_experiment_designs hid pid).Pairwise
        (fun a b => b.created_at ≤ a.created_at)) ∧
    (∀ (db : Database) (did pid : Option String),
      (db.get_experiment_runs did pid).Pairwise
        (fun a b => b.started_at ≤ a.started_at)) ∧
    (∀ (db : Database) (rid hid pid : Option String),
      (db.get_analyses rid hid pid).Pairwise
        (fun a b => b.created_at ≤ a.created_at)) := by
  refine ⟨?_, ?_, ?_, ?_, ?_⟩
  · intro db pid
    exact pairwise_sortDescBy _ _
  · intro db pid st
    exact pairwise_sortDescBy _ _
  · intro db hid pid
    rcases hid with _ | h
    · rcases pid with _ | p
      · simp [Database.get_experiment_designs]
      · exact pairwise_sortDescBy _ _
    · exact pairwise_sortDescBy _ _
  · intro db did pid
    rcases did with _ | d
    · rcases pid with _ | p
      · simp [Database.get_experiment_runs]
      · exact pairwise_sortDescBy _ _
    · exact pairwise_sortDescBy _ _
  · intro db rid hid pid
    rcases rid with _ | r
    · rcases hid with _ | h
      · rcases pid with _ | p
        · simp [Database.get_analyses]
        · exact pairwise_sortDescBy _ _
      · exact pairwise_sortDescBy _ _
    · exact pairwise_sortDescBy _ _

theorem updateRunFields_eq (r : ExperimentRun) (st : Option String)
    (rd : Option ResultsData) (lg er : Option String) (du cc : Option ℚ)
    (now : Nat) :
    updateRunFields r st rd lg er du cc now =
      { id := r.id, design_id := r.design_id, project_id := r.project_id
        status :=
          (match st with
           | some s => if s = "" then r.status else s
           | none => r.status)
        platform := r.platform, started_at := r.started_at
        completed_at :=
          (if st = some "completed" then some now else r.completed_at)
        duration_seconds :=
          (match du with
           | some u => some u
           | none => r.duration_seconds)
        compute_cost_usd :=
          (match cc with
           | some c => c
           | none => r.compute_cost_usd)
        results_data :=
          (match rd with
           | some d => some d
           | none => r.results_data)
        logs :=
          (match lg with
           | some l => some l
           | none => r.logs)
        error :=
          (match er with
           | some e => some e
           | none => r.error)
        metadata := r.metadata } := by
  rcases st with _ | s
  · rcases rd with _ | d <;> rcases lg with _ | l <;> rcases er with _ | e <;>
      rcases du with _ | u <;> rcases cc with _ | c <;> rfl
  · by_cases hs : s = ""
    · subst hs
      rcases rd with _ | d <;> rcases lg with _ | l <;> rcases er with _ | e <;>
        rcases du with _ | u <;> rcases cc with _ | c <;>
        simp [updateRunFields]
    · by_cases hc : s = "completed"
      · subst hc
        rcases rd with _ | d <;> rcases lg with _ | l <;>
          rcases er with _ | e <;> rcases du with _ | u <;>
          rcases cc with _ | c <;> simp [updateRunFields]
      · rcases rd with _ | d <;> rcases lg with _ | l <;>
          rcases er with _ | e <;> rcases du with _ | u <;>
          rcases cc with _ | c <;> simp [updateRunFields, hs, hc]

/-- Claim C10: `update_experiment_run` writes only the supplied
columns — a column whose argument is omitted keeps its prior value,
rows with a different id are untouched, the identity columns are never
written, and `completed_at` is stamped exactly when the supplied
status equals `completed` (so a run updated to `failed` keeps its
`completed_at`, null included). -/
theorem update_experiment_run_frame :
    (∀ (r : ExperimentRun) (st : Option String) (rd : Option ResultsData)
      (lg er : Option String) (du cc : Option ℚ) (now : Nat),
      let r2 := updateRunFields r st rd lg er du cc now
      (st = none → r2.status = r.status) ∧
      (rd = none → r2.results_data = r.results_data) ∧
      (lg = none → r2.logs = r.logs) ∧
      (er = none → r2.error = r.error) ∧
      (du = none → r2.duration_seconds = r.duration_seconds) ∧
      (cc = none → r2.compute_cost_usd = r.compute_cost_usd) ∧
      r2.id = r.id ∧ r2.design_id = r.design_id ∧
      r2.project_id = r.project_id ∧ r2.platform = r.platform ∧
      r2.started_at = r.started_at ∧ r2.metadata = r.metadata ∧
      r2.completed_at =
        (if st = some "completed" then some now else r.completed_at)) ∧
    (∀ (db : Database) (run_id : String) (st : Option String)
      (rd : Option ResultsData) (lg er : Option String) (du cc : Option ℚ)
      (now : Nat) (r : ExperimentRun), r ∈ db.experiment_runs →
      r.id ≠ run_id →
      r ∈ (db.update_experiment_run run_id st rd lg er du cc
        now).experiment_runs) := by
  constructor
  · intro r st rd lg er du cc now
    refine ⟨?_, ?_, ?_, ?_, ?_, ?_, ?_, ?_, ?_, ?_, ?_, ?_, ?_⟩ <;>
      simp only [updateRunFields_eq] <;> intros <;> simp_all
  · intro db run_id st rd lg er du cc now r hr hne
    have : (fun x => if x.id == run_id then
        updateRunFields x st rd lg er du cc now else x) r = r := by
      simp [hne]
    rw [Database.update_experiment_run]
    exact this ▸ List.mem_map_of_mem _ hr

/-- Claim C4: each of stages 3-6, invoked on a project with no
predecessor record of the required prior stage (no completed Agent-2
run, no hypothesis, no design, and no run carrying `results_data`,
respectively), returns the failure envelope whose `results.error`
mentions the required prior agent, with zero tokens and cost charged
and the store left unchanged. -/
theorem missing_predecessor_fails :
    (∀ (db : Database) (pid : String) (title : Option String)
        (o : Stage3Oracle), pid ≠ "" →
      db.agent_runs.filter (fun r => r.project_id == pid &&
        r.agent_name == "IdeaGenerationAgent" &&
        r.status == "completed") = [] →
      HypothesisFormationAgent.execute db pid title o =
        (failureOutput "No ideas found. Run Agent 2 first."
          "Run Agent 2 (Idea Generation) first to generate ideas.", db)) ∧
    (∀ (db : Database) (pid : String) (hid : Option String)
        (o : Stage4Oracle), pid ≠ "" →
      (∀ h ∈ db.hypotheses, h.project_id ≠ pid) →
      ExperimentDesignAgent.execute db pid hid o =
        (failureOutput "No hypothesis found. Run Agent 3 first."
          "Run Agent 3 (Hypothesis Formation) first.", db)) ∧
    (∀ (db : Database) (pid : String) (did : Option String)
        (o : Stage5Oracle), pid ≠ "" →
      (∀ d ∈ db.experiment_designs, d.project_id ≠ pid) →
      ExperimentExecutionAgent.execute db pid did o =
        (failureOutput "No experiment design found. Run Agent 4 first."
          "Run Agent 4 (Experiment Design) first.", [])) ∧
    (∀ (db : Database) (pid : String) (rid : Option String)
        (o : Stage6Oracle), pid ≠ "" →
      (∀ r ∈ db.experiment_runs, r.project_id = pid →
        r.results_data = none) →
      ResultsAnalysisAgent.execute db pid rid o =
        (failureOutput "No completed experiment run found. Run Agent 5 first."
          "Run Agent 5 (Experiment Execution) first.", db)) ∧
    (∀ e note : String, (failureOutput e note).success = false ∧
      (failureOutput e note).results_error = some e ∧
      (failureOutput e note).tokens_used = 0 ∧
      (failureOutput e note).cost_usd = 0) ∧
    Mentions "No ideas found. Run Agent 2 first." "Agent 2" ∧
    Mentions "No hypothesis found. Run Agent 3 first." "Agent 3" ∧
    Mentions "No experiment design found. Run Agent 4 first." "Agent 4" ∧
    Mentions "No completed experiment run found. Run Agent 5 first."
      "Agent 5" := by
  refine ⟨?_, ?_, ?_, ?_, ?_, ?_, ?_, ?_, ?_⟩
  · intro db pid title o hpid hruns
    simp only [HypothesisFormationAgent.execute, if_neg hpid, hruns,
      sortDescBy, List.head?]
  · intro db pid hid o hpid hhyp
    have hget : db.get_hypotheses pid none = [] := by
      simp only [Database.get_hypotheses, Bool.and_true]
      have hf : db.hypotheses.filter (fun h => h.project_id == pid) = [] := by
        rw [List.filter_eq_nil_iff]
        intro a ha
        simpa using hhyp a ha
      rw [hf]
      rfl
    simp only [ExperimentDesignAgent.execute, if_neg hpid, hget,
      selectRecord_nil]
  · intro db pid did o hpid hdes
    have hget : db.get_experiment_designs none (some pid) = [] := by
      simp only [Database.get_experiment_designs]
      have hf : db.experiment_designs.filter
          (fun d => d.project_id == pid) = [] := by
        rw [List.filter_eq_nil_iff]
        intro a ha
        simpa using hdes a ha
      rw [hf]
      rfl
    simp only [ExperimentExecutionAgent.execute, if_neg hpid, hget,
      selectRecord_nil]
  · intro db pid rid o hpid hruns
    cases hsel : selectRecord rid ExperimentRun.id
        (db.get_experiment_runs none (some pid)) with
    | none =>
      simp only [ResultsAnalysisAgent.execute, if_neg hpid, hsel]
    | some r =>
      have hmem : r ∈ db.get_experiment_runs none (some pid) :=
        mem_of_selectRecord hsel
      simp only [Database.get_experiment_runs, mem_sortDescBy] at hmem
      have hfm := List.mem_filter.mp hmem
      have hrd : r.results_data = none :=
        hruns r hfm.1 (by simpa using hfm.2)
      simp only [ResultsAnalysisAgent.execute, if_neg hpid, hsel, hrd]
  · intro e note
    exact ⟨rfl, rfl, rfl, rfl⟩
  · exact ⟨"No ideas found. Run ", " first.", rfl⟩
  · exact ⟨"No hypothesis found. Run ", " first.", rfl⟩
  · exact ⟨"No experiment design found. Run ", " first.", rfl⟩
  · exact ⟨"No completed experiment run found. Run ", " first.", rfl⟩

/-- Witness for C4: on the empty store and project `proj`, each of
stages 3-6 fails with zero tokens and cost and the expected error. -/
theorem missing_predecessor_fails_witness :
    HypothesisFormationAgent.execute dbEmpty "proj" none
      stage3FallbackOracle =
      (failureOutput "No ideas found. Run Agent 2 first."
        "Run Agent 2 (Idea Generation) first to generate ideas.", dbEmpty) ∧
    ExperimentDesignAgent.execute dbEmpty "proj" none stage4Oracle1 =
      (failureOutput "No hypothesis found. Run Agent 3 first."
        "Run Agent 3 (Hypothesis Formation) first.", dbEmpty) ∧
    ExperimentExecutionAgent.execute dbEmpty "proj" none stage5Oracle1 =
      (failureOutput "No experiment design found. Run Agent 4 first."
        "Run Agent 4 (Experiment Design) first.", []) ∧
    ResultsAnalysisAgent.execute dbEmpty "proj" none stage6Oracle1 =
      (failureOutput "No completed experiment run found. Run Agent 5 first."
        "Run Agent 5 (Experiment Execution) first.", dbEmpty) :=
  ⟨missing_predecessor_fails.1 dbEmpty "proj" none stage3FallbackOracle
      (by decide) rfl,
   missing_predecessor_fails.2.1 dbEmpty "proj" none stage4Oracle1
      (by decide) (by simp [dbEmpty]),
   missing_predecessor_fails.2.2.1 dbEmpty "proj" none stage5Oracle1
      (by decide) (by simp [dbEmpty]),
   missing_predecessor_fails.2.2.2.1 dbEmpty "proj" none stage6Oracle1
      (by decide) (by simp [dbEmpty])⟩

/-- Witness for C10: a queued run updated to `failed` (with an error
and a duration supplied) keeps `completed_at` null and its
`results_data`, and a row with a different id is untouched by an
update. -/
theorem update_experiment_run_frame_witness :
    (updateRunFields runNoResults (some "failed") none none (some "boom")
      (some 2) none 99).completed_at = none ∧
    (updateRunFields runNoResults (some "failed") none none (some "boom")
      (some 2) none 99).results_data = none ∧
    runNoResults ∈ (Database.update_experiment_run
      { dbEmpty with experiment_runs := [runNoResults] } "other"
      (some "completed") none none none none none 99).experiment_runs := by
  have h := update_experiment_run_frame.1 runNoResults (some "failed") none
    none (some "boom") (some 2) none 99
  have h2 := update_experiment_run_frame.2
    { dbEmpty with experiment_runs := [runNoResults] } "other"
    (some "completed") none none none none none 99 runNoResults
    (by simp) (by simp [runNoResults])
  refine ⟨?_, ?_, h2⟩
  · have hca := h.2.2.2.2.2.2.2.2.2.2.2.2
    simpa [runNoResults] using hca
  · have hrd := h.2.1 rfl
    simpa [runNoResults] using hrd

/-- Counterexample to claim C7: a malformed generative payload can
fail a stage — on a store with one paper, a Stage-2 invocation whose
idea-batch completion does not decode returns `success = false` with
`results.error = "Failed to generate valid ideas"` (the parse failure
is surfaced to the caller), charging the completions made so far. -/
theorem malformed_ideas_fail_stage2 :
    (IdeaGenerationAgent.execute dbOnePaper "proj"
      stage2MalformedOracle).success = false ∧
    (IdeaGenerationAgent.execute dbOnePaper "proj"
      stage2MalformedOracle).results_error =
      some "Failed to generate valid ideas" ∧
    (IdeaGenerationAgent.execute dbOnePaper "proj"
      stage2MalformedOracle).tokens_used = 300 := by
  refine ⟨rfl, rfl, rfl⟩

/-- Claim C7 as amended: the structured extractions of Stage 3 (and
the data-requirements extraction of Stage 4) recover from malformed
generative payloads via their documented fallbacks without failing the
stage; the exception is Stage 2's idea-batch extraction — when no
valid idea survives parsing, Stage 2 returns `success = false` with
error `Failed to generate valid ideas`, charging the completions made
so far. -/
theorem malformed_payload_recovery :
    (∀ (db : Database) (pid : String) (o : Stage3Oracle) (run : AgentRun)
        (rest : List AgentRun) (i : ScoredIdea) (is : List ScoredIdea),
      pid ≠ "" →
      sortDescBy AgentRun.completed_at (db.agent_runs.filter
        (fun r => r.project_id == pid &&
          r.agent_name == "IdeaGenerationAgent" &&
          r.status == "completed")) = run :: rest →
      run.results_ideas = some (i :: is) →
      (HypothesisFormationAgent.execute db pid none o).1.success = true) ∧
    (∀ (db : Database) (pid : String) (o : Stage4Oracle) (h : Hypothesis)
        (hs : List Hypothesis),
      pid ≠ "" →
      db.get_hypotheses pid none = h :: hs →
      (ExperimentDesignAgent.execute db pid none o).1.success = true) ∧
    (∀ (db : Database) (pid : String) (o : Stage2Oracle),
      pid ≠ "" →
      db.get_papers pid ≠ [] →
      parse_ideas o.ideas_parsed = [] →
      (IdeaGenerationAgent.execute db pid o).success = false ∧
      (IdeaGenerationAgent.execute db pid o).results_error =
        some "Failed to generate valid ideas" ∧
      (IdeaGenerationAgent.execute db pid o).tokens_used =
        o.gaps_tokens + o.ideas_tokens) := by
  refine ⟨?_, ?_, ?_⟩
  · intro db pid o run rest i is hpid hsorted hideas
    simp only [HypothesisFormationAgent.execute, if_neg hpid, hsorted,
      List.head?, hideas, Option.getD]
  · intro db pid o h hs hpid hget
    simp only [ExperimentDesignAgent.execute, if_neg hpid, hget,
      selectRecord, List.head?]
  · intro db pid o hpid hpap hparse
    cases hp : db.get_papers pid with
    | nil => exact absurd hp hpap
    | cons p ps =>
      refine ⟨?_, ?_, ?_⟩ <;>
        simp only [IdeaGenerationAgent.execute, if_neg hpid, hp, hparse,
          List.isEmpty_cons, List.isEmpty_nil, Bool.false_eq_true, if_false,
          if_true]

/-- Witness for the amended C7: Stage 3 with every extraction failing
still succeeds (on a store with a completed Agent-2 run holding one
idea); Stage 4 with a failing data-requirements extraction succeeds;
and the concrete Stage-2 malformed-batch invocation fails with the
documented error. -/
theorem malformed_payload_recovery_witness :
    (HypothesisFormationAgent.execute dbWithIdeas "proj" none
      stage3FallbackOracle).1.success = true ∧
    (ExperimentDesignAgent.execute dbOneHyp "proj" none
      stage4Oracle1).1.success = true ∧
    (IdeaGenerationAgent.execute dbOnePaper "proj"
      stage2MalformedOracle).success = false :=
  ⟨malformed_payload_recovery.1 dbWithIdeas "proj" stage3FallbackOracle
      _ [] ideaA [] (by decide) rfl rfl,
   malformed_payload_recovery.2.1 dbOneHyp "proj" stage4Oracle1 hypA []
      (by decide) rfl,
   (malformed_payload_recovery.2.2 dbOnePaper "proj" stage2MalformedOracle
      (by decide) (by decide) rfl).1⟩

/-- Counterexample to claim C8: an experiment run does not pass
through the `running` state — on a store with one design, a successful
Stage-5 invocation writes the status sequence
`queued, completed` for its run, never `running`. -/
theorem run_skips_running_state :
    statusWrites "run_abc123" (ExperimentExecutionAgent.execute dbOneDesign
      "proj" none stage5Oracle1).2 = ["queued", "completed"] ∧
    "running" ∉ statusWrites "run_abc123"
      (ExperimentExecutionAgent.execute dbOneDesign "proj" none
        stage5Oracle1).2 := by
  refine ⟨rfl, ?_⟩
  intro hmem
  rw [show statusWrites "run_abc123" (ExperimentExecutionAgent.execute
    dbOneDesign "proj" none stage5Oracle1).2 = ["queued", "completed"]
    from rfl] at hmem
  simp at hmem

/-- Claim C8 as amended: a run is created `queued` and transitions
directly to its terminal status — `completed` on success, `failed` on
an internal exception — with no intermediate `running` state; within
one invocation the status is written exactly twice (`queued`, then the
terminal status, which is never rewritten), and each invocation uses
the run id `run_<uuid>` minted from its own fresh uuid, so a failed
run is never retried under the same id. -/
theorem run_state_machine :
    (∀ (db : Database) (pid : String) (did : Option String)
        (o : Stage5Oracle),
      (ExperimentExecutionAgent.execute db pid did o).2 = [] ∨
      ((o.exec_error = none →
        statusWrites ("run_" ++ o.uuid_hex)
          (ExperimentExecutionAgent.execute db pid did o).2 =
          ["queued", "completed"] ∧
        (ExperimentExecutionAgent.execute db pid did o).1.success = true) ∧
      (∀ msg, o.exec_error = some msg →
        statusWrites ("run_" ++ o.uuid_hex)
          (ExperimentExecutionAgent.execute db pid did o).2 =
          ["queued", "failed"] ∧
        (ExperimentExecutionAgent.execute db pid did o).1.success =
          false))) ∧
    (∀ a b : String, a ≠ b → "run_" ++ a ≠ "run_" ++ b) := by
  constructor
  · intro db pid did o
    by_cases hpid : pid = ""
    · left
      simp [ExperimentExecutionAgent.execute, hpid]
    · cases hsel : selectRecord did ExperimentDesign.id
          (db.get_experiment_designs none (some pid)) with
      | none =>
        left
        simp [ExperimentExecutionAgent.execute, if_neg hpid, hsel]
      | some d =>
        right
        constructor
        · intro he
          constructor
          · simp only [ExperimentExecutionAgent.execute, if_neg hpid, hsel,
              he]
            simp [statusWrites, pyTruthy]
          · simp only [ExperimentExecutionAgent.execute, if_neg hpid, hsel,
              he]
        · intro msg he
          constructor
          · simp only [ExperimentExecutionAgent.execute, if_neg hpid, hsel,
              he]
            simp [statusWrites, pyTruthy]
          · simp only [ExperimentExecutionAgent.execute, if_neg hpid, hsel,
              he]
  · intro a b hne h
    apply hne
    have hd := congrArg String.data h
    simp only [String.data_append] at hd
    exact String.ext (List.append_cancel_left hd)

/-- Witness for the amended C8: the concrete successful Stage-5
invocation writes exactly `queued`, then `completed`, for its freshly
minted run id, and distinct uuids mint distinct run ids. -/
theorem run_state_machine_witness :
    statusWrites "run_abc123" (ExperimentExecutionAgent.execute dbOneDesign
      "proj" none stage5Oracle1).2 = ["queued", "completed"] ∧
    ("run_" ++ "abc123" : String) ≠ "run_" ++ "def456" := by
  constructor
  · rcases run_state_machine.1 dbOneDesign "proj" none stage5Oracle1 with
      h | h
    · exact absurd h (by decide)
    · exact (h.1 rfl).1
  · exact run_state_machine.2 "abc123" "def456" (by decide)

end ResearchSystem
